import Mathlib

/-!
Shallow embedding of the per-node bucket-stats collector
(src/pkg/collectors/pernode_bucketstats.go) of the couchbase-exporter
repository, together with proofs of the specified properties.

Numeric sample values are represented as exact rationals: every concrete
value appearing in the verified properties is an exactly representable
decimal, so the binary64 rounding performed by the Go runtime is the
identity on them.
-/

namespace PerNodeBucketStats

/-! ## Model of strconv.ParseFloat on decimal inputs

The Go code calls strconv.ParseFloat(f, 64) on each space-separated token.
The model below accepts the decimal forms: an optional sign, a mantissa
made of digits with at most one dot (at least one digit overall), and an
optional exponent part introduced by e or E.  The special forms inf,
infinity, nan, hexadecimal floats and underscore-separated literals are
outside the fragment exercised by this development and are not modelled.
The returned value is the exact rational denoted by the decimal string. -/

/-- Numeric value of a decimal digit character. -/
def digVal (c : Char) : Nat := c.toNat - Char.toNat '0'

/-- Value of a digit string read in base 10. -/
def decimalValue (ds : List Char) : Nat :=
  ds.foldl (fun acc c => acc * 10 + digVal c) 0

/-- Split a character list into its leading run of digits and the rest. -/
def spanDigits (cs : List Char) : List Char × List Char :=
  cs.span Char.isDigit

/-- Consume an optional leading sign; true means negative. -/
def parseOptSign : List Char → Bool × List Char
  | '+' :: r => (false, r)
  | '-' :: r => (true, r)
  | cs => (false, cs)

/-- Parse the mantissa: digits, optionally with one dot, at least one digit
overall.  Returns the exact rational value and the unconsumed suffix. -/
def parseMantissa (cs : List Char) : Option (ℚ × List Char) :=
  let p1 := spanDigits cs
  match p1.2 with
  | '.' :: r2 =>
    let p2 := spanDigits r2
    if p1.1.isEmpty && p2.1.isEmpty then none
    else some ((decimalValue p1.1 : ℚ) + (decimalValue p2.1 : ℚ) / (10 : ℚ) ^ p2.1.length, p2.2)
  | _ => if p1.1.isEmpty then none else some ((decimalValue p1.1 : ℚ), p1.2)

/-- Parse an optional exponent part: e or E, optional sign, one or more
digits.  When the next character is not e or E nothing is consumed and the
exponent is zero; a malformed exponent part rejects the whole token. -/
def parseExponent : List Char → Option (Int × List Char)
  | 'e' :: r =>
    let ps := parseOptSign r
    let pd := spanDigits ps.2
    if pd.1.isEmpty then none
    else some (if ps.1 then -(decimalValue pd.1 : Int) else (decimalValue pd.1 : Int), pd.2)
  | 'E' :: r =>
    let ps := parseOptSign r
    let pd := spanDigits ps.2
    if pd.1.isEmpty then none
    else some (if ps.1 then -(decimalValue pd.1 : Int) else (decimalValue pd.1 : Int), pd.2)
  | cs => some (0, cs)

/-- Scale a mantissa by ten to the given (possibly negative) power. -/
def applyExp (m : ℚ) : Int → ℚ
  | Int.ofNat n => m * (10 : ℚ) ^ n
  | Int.negSucc n => m / (10 : ℚ) ^ (n + 1)

/-- Model of strconv.ParseFloat on the decimal fragment: some value on
success, none on any parse failure (empty token, malformed mantissa,
malformed exponent, trailing garbage). -/
def parseFloat (s : String) : Option ℚ :=
  let p0 := parseOptSign s.toList
  match parseMantissa p0.2 with
  | none => none
  | some (m, r1) =>
    match parseExponent r1 with
    | none => none
    | some (e, r2) =>
      if r2.isEmpty then some (if p0.1 then -(applyExp m e) else applyExp m e) else none

/-! ## strToFloatArr (pernode_bucketstats.go lines 1999 to 2011)

Go splits the input on every single space (strings.Split with separator
one space) and appends to the result each token that ParseFloat accepts;
the accumulator loop below mirrors the Go range loop with append.  The
split is embedded directly as a structural recursion over the character
list, with the strings.Split semantics: splitting the empty string gives
the one-element list holding the empty string, and every occurrence of
the separator produces a boundary, so adjacent, leading or trailing
separators produce empty tokens. -/

/-- Split a character list at every space character. -/
def splitChars : List Char → List (List Char)
  | [] => [[]]
  | c :: rest =>
    if c = ' ' then [] :: splitChars rest
    else
      match splitChars rest with
      | t :: ts => (c :: t) :: ts
      | [] => [[c]]

/-- Embedding of strings.Split with a one-space separator. -/
def splitOnSpaces (s : String) : List String :=
  (splitChars s.toList).map fun cs => String.mk cs

/-- Embedding of strToFloatArr: split on single spaces, keep the values of
the tokens that parse as floats, in order. -/
def strToFloatArr (floatsStr : String) : List ℚ :=
  let floatsStrArr := splitOnSpaces floatsStr
  floatsStrArr.foldl
    (fun floatsArr f =>
      match parseFloat f with
      | some i => floatsArr ++ [i]
      | none => floatsArr)
    []

/-! ## setGaugeVec (lines 2013 to 2017)

A Prometheus gauge vector is modelled as a map from a label-value
tuple to the current gauge value; a cell that has never been set holds
none.  The Go code writes stats[len(stats)-1] when the slice is nonempty,
which is exactly the last element. -/

/-- A gauge vector: label tuple to current value of that cell. -/
def GaugeVec : Type := List String → Option ℚ

/-- Embedding of setGaugeVec: when the stats slice is nonempty, set the
cell addressed by the label values to the last element; otherwise leave
the vector untouched. -/
def setGaugeVec (vec : GaugeVec) (stats : List ℚ) (labelValues : List String) : GaugeVec :=
  match stats.getLast? with
  | some last => fun l => if l = labelValues then some last else vec l
  | none => vec

/-! ## Cluster data shapes

The shapes below embed the JSON response structures consumed by the
collector (package objects of the repository; their declarations are not
under src, so the field set is the one the collector reads, shaped per
the spec: hostname and this-node flag per node, plus the balanced flag,
rebalance status string and rebalance-success counter of the node-list
response). -/

/-- One entry of the cluster node list. -/
structure ClusterNode where
  hostname : String
  thisNode : Bool

/-- The counters section of the node-list response. -/
structure Counters where
  rebalanceSuccess : Nat

/-- The node-list response read by the collector. -/
structure NodesInfo where
  counters : Counters
  balanced : Bool
  rebalanceStatus : String
  nodes : List ClusterNode

/-- One entry of the server list of a bucket: a hostname and a string map
of named URIs. -/
structure Server where
  hostname : String
  stats : List (String × String)

/-- The server-list response for one bucket. -/
structure ServersInfo where
  servers : List Server

/-- A bucket, of which the collector only reads the name. -/
structure Bucket where
  name : String

/-- The samples section of a per-node bucket-stats payload: field name to
formatted sample series.  In Go this is a map from string to interface
values; a value, when present, is used only through fmt.Sprint, so the
model stores the formatted string directly and keeps absence as none. -/
def SamplesMap : Type := String → Option String

/-- The op wrapper of a per-node bucket-stats payload. -/
structure StatsOp where
  samples : SamplesMap

/-- The per-node bucket-stats payload. -/
structure PerNodeStats where
  op : StatsOp

/-- The HTTP client collaborator, modelled as the responses it returns:
each accessor yields either the decoded response or an error string. -/
structure Client where
  nodes : Except String NodesInfo
  servers : String → Except String ServersInfo
  buckets : Except String (List Bucket)
  clusterName : Except String String
  get : String → Except String PerNodeStats

/-- Embedding of fmt.Sprint applied to one lookup in the samples map: a
present value formats as its sample-series string; a missing key yields
the nil interface value, which fmt.Sprint formats as the five-character
string containing nil in angle brackets. -/
def sprintSample : Option String → String
  | some s => s
  | none => "<nil>"

/-! ## getClusterBalancedStatus (lines 2019 to 2026) -/

/-- Embedding of getClusterBalancedStatus: propagate a node-list fetch
failure as an error; otherwise report whether the rebalance-success
counter is positive, or the balanced flag is set with rebalance status
none. -/
def getClusterBalancedStatus (nodesResult : Except String NodesInfo) : Except String Bool :=
  match nodesResult with
  | Except.error e => Except.error ("unable to retrieve nodes, " ++ e)
  | Except.ok node =>
    Except.ok (decide (node.counters.rebalanceSuccess > 0) || (node.balanced && node.rebalanceStatus == "none"))

/-! ## getCurrentNode (lines 2028 to 2041) -/

/-- The scan loop of getCurrentNode: hostname of the first node carrying
the this-node flag, or the empty string when no node carries it. -/
def findThisNode : List ClusterNode → String
  | [] => ""
  | n :: rest => if n.thisNode then n.hostname else findThisNode rest

/-- Embedding of getCurrentNode: propagate a node-list fetch failure as an
error; otherwise return the hostname of the first flagged node, and the
empty string with no error when no node is flagged (the final Go return
hands back the nil error). -/
def getCurrentNode (nodesResult : Except String NodesInfo) : Except String String :=
  match nodesResult with
  | Except.error e => Except.error ("unable to retrieve nodes: " ++ e)
  | Except.ok info => Except.ok (findThisNode info.nodes)

/-! ## getSpecificNodeBucketStatsURL (lines 2056 to 2070) -/

/-- Lookup in a Go string map, returning the zero value (the empty
string) for a missing key. -/
def mapGetD (m : List (String × String)) (k : String) : String :=
  match m.find? (fun p => p.1 == k) with
  | some p => p.2
  | none => ""

/-- Embedding of getSpecificNodeBucketStatsURL: a failed server-list
fetch is only logged, leaving the zero-value response with an empty
server list; the loop then overwrites the result with the uri entry of
every server whose hostname equals the node, so the last match wins and
no match leaves the empty string. -/
def getSpecificNodeBucketStatsURL (serversResult : Except String ServersInfo) (node : String) : String :=
  let servers :=
    match serversResult with
    | Except.error _ => []
    | Except.ok s => s.servers
  servers.foldl
    (fun correctURI server =>
      if server.hostname == node then mapGetD server.stats "uri" else correctURI)
    ""

/-! ## getPerNodeBucketStats (lines 2043 to 2053) -/

/-- Embedding of getPerNodeBucketStats: resolve the stats URL, issue the
GET; a failure is only logged, leaving the zero-value payload whose
samples map is nil, here the everywhere-none map. -/
def getPerNodeBucketStats (client : Client) (bucketName nodeName : String) : SamplesMap :=
  let url := getSpecificNodeBucketStatsURL (client.servers bucketName) nodeName
  match client.get url with
  | Except.error _ => fun _ => none
  | Except.ok bs => bs.op.samples

/-! ## The collection loop (lines 2072 to 2343)

The process-wide set of gauge vectors is modelled as a store keyed by the
Go variable name of each gauge vector.  The body of the loop is one
setGaugeVec call per tracked field; the fixed association of gauge
variable to samples key is transcribed below in source order, including
the repetition of HibernatedRequests for the hibernated-waked field that
is present in the source. -/

/-- The process-wide gauge state: gauge variable name to gauge vector. -/
def GaugeStore : Type := String → GaugeVec

/-- Update one named gauge vector of the store through setGaugeVec. -/
def setGaugeVecIn (store : GaugeStore) (g : String) (stats : List ℚ) (labelValues : List String) : GaugeStore :=
  fun name => if name = g then setGaugeVec (store g) stats labelValues else store name

/-- The fixed dispatch table of the loop body: gauge variable name paired
with the samples-map key it is fed from, in source order (lines 2106 to
2330). -/
def statsTable : List (String × String) := [
  ("AvgDiskUpdateTime", "avg_disk_update_time"),
  ("AvgDiskCommitTime", "avg_disk_commit_time"),
  ("AvgBgWaitTime", "avg_bg_wait_seconds"),
  ("AvgActiveTimestampDrift", "avg_active_timestamp_drift"),
  ("AvgReplicaTimestampDrift", "avg_replica_timestamp_drift"),
  ("CouchTotalDiskSize", "couch_total_disk_size"),
  ("CouchDocsFragmentation", "couch_docs_fragmentation"),
  ("CouchViewsFragmentation", "couch_views_fragmentation"),
  ("CouchDocsActualDiskSize", "couch_docs_actual_disk_size"),
  ("CouchDocsDataSize", "couch_docs_data_size"),
  ("CouchDocsDiskSize", "couch_docs_disk_size"),
  ("CouchSpatialDataSize", "couch_docs_spatial_data_size"),
  ("CouchSpatialDiskSize", "couch_docs_spatial_disk_size"),
  ("CouchSpatialOps", "couch_spatial_ops"),
  ("CouchViewsActualDiskSize", "couch_views_actual_disk_size"),
  ("CouchViewsDataSize", "couch_views_data_size"),
  ("CouchViewsDiskSize", "couch_views_disk_size"),
  ("CouchViewsOps", "couch_views_ops"),
  ("EpCacheMissRate", "ep_cache_miss_rate"),
  ("EpResidentItemsRate", "ep_resident_items_rate"),
  ("EpActiveAheadExceptions", "ep_active_ahead_exceptions"),
  ("EpActiveHlcDrift", "ep_active_hlc_drift"),
  ("EpActiveHlcDriftCount", "ep_active_hlc_drift_count"),
  ("EpBgFetched", "ep_bg_fetched"),
  ("EpClockCasDriftTheresholExceeded", "ep_clock_cas_drift_threshold_exceeded"),
  ("EpDataReadFailed", "ep_data_read_failed"),
  ("EpDataWriteFailed", "ep_data_write_failed"),
  ("EpDcp2iBackoff", "ep_dcp_2i_backoff"),
  ("EpDcp2iCount", "ep_dcp_2i_count"),
  ("EpDcp2iItemsRemaining", "ep_dcp_2i_items_remaining"),
  ("EpDcp2iItemsSent", "ep_dcp_2i_items_sent"),
  ("EpDcp2iProducerCount", "ep_dcp_2i_producers"),
  ("EpDcp2iTotalBacklogSize", "ep_dcp_2i_total_backlog_size"),
  ("EpDcp2iTotalBytes", "ep_dcp_2i_total_bytes"),
  ("EpDcpCbasBackoff", "ep_dcp_cbas_backoff"),
  ("EpDcpCbasCount", "ep_dcp_cbas_count"),
  ("EpDcpCbasItemsRemaining", "ep_dcp_cbas_items_remaining"),
  ("EpDcpCbasItemsSent", "ep_dcp_cbas_items_sent"),
  ("EpDcpCbasProducerCount", "ep_dcp_cbas_items_producer_count"),
  ("EpDcpCbasTotalBacklogSize", "ep_dcp_cbas_items_total_backlog_size"),
  ("EpDcpCbasTotalBytes", "ep_dcp_cbas_items_total_bytes"),
  ("EpDcpFtsBackoff", "ep_dcp_fts_backoff"),
  ("EpDcpFtsCount", "ep_dcp_fts_count"),
  ("EpDcpFtsItemsRemaining", "ep_dcp_fts_items_remaining"),
  ("EpDcpFtsItemsSent", "ep_dcp_fts_items_sent"),
  ("EpDcpFtsProducerCount", "ep_dcp_fts_producer_count"),
  ("EpDcpFtsTotalBacklogSize", "ep_dcp_fts_backlog_size"),
  ("EpDcpFtsTotalBytes", "ep_dcp_fts_total_bytes"),
  ("EpDcpOtherBackoff", "ep_dcp_other_backoff"),
  ("EpDcpOtherCount", "ep_dcp_other_count"),
  ("EpDcpOtherItemsRemaining", "ep_dcp_other_items_remaining"),
  ("EpDcpOtherItemsSent", "ep_dcp_other_items_sent"),
  ("EpDcpOtherProducerCount", "ep_dcp_other_producer_count"),
  ("EpDcpOtherTotalBacklogSize", "ep_dcp_other_total_backlog_size"),
  ("EpDcpOtherTotalBytes", "ep_dcp_other_total_bytes"),
  ("EpDcpReplicaBackoff", "ep_dcp_replica_backoff"),
  ("EpDcpReplicaCount", "ep_dcp_replica_count"),
  ("EpDcpReplicaItemsRemaining", "ep_dcp_replica_items_remaining"),
  ("EpDcpReplicaItemsSent", "ep_dcp_replica_items_sent"),
  ("EpDcpReplicaProducerCount", "ep_dcp_replica_producer_count"),
  ("EpDcpReplicaTotalBacklogSize", "ep_dcp_replica_total_backlog_size"),
  ("EpDcpReplicaTotalBytes", "ep_dcp_replica_total_bytes"),
  ("EpDcpViewsBackoff", "ep_dcp_views_backoff"),
  ("EpDcpViewsCount", "ep_dcp_views_count"),
  ("EpDcpViewsItemsRemaining", "ep_dcp_views_items_remaining"),
  ("EpDcpViewsItemsSent", "ep_dcp_views_items_sent"),
  ("EpDcpViewsProducerCount", "ep_dcp_views_producer_count"),
  ("EpDcpViewsTotalBacklogSize", "ep_dcp_views_total_backlog_size"),
  ("EpDcpViewsTotalBytes", "ep_dcp_views_total_bytes"),
  ("EpDcpViewsIndexesBackoff", "ep_dcp_views_indexes_backoff"),
  ("EpDcpViewsIndexesCount", "ep_dcp_views_indexes_count"),
  ("EpDcpViewsIndexesItemsRemaining", "ep_dcp_views_indexes_items_remaining"),
  ("EpDcpViewsIndexesItemsSent", "ep_dcp_views_indexes_items_sent"),
  ("EpDcpViewsIndexesProducerCount", "ep_dcp_views_indexes_producer_count"),
  ("EpDcpViewsIndexesTotalBacklogSize", "ep_dcp_views_indexes_total_backlog_size"),
  ("EpDcpViewsIndexesTotalBytes", "ep_dcp_views_indexes_total_bytes"),
  ("EpDcpXdcrBackoff", "ep_dcp_xdcr_backoff"),
  ("EpDcpXdcrCount", "ep_dcp_xdcr_count"),
  ("EpDcpXdcrItemsRemaining", "ep_dcp_xdcr_items_remaining"),
  ("EpDcpXdcrItemsSent", "ep_dcp_xdcr_items_sent"),
  ("EpDcpXdcrProducerCount", "ep_dcp_xdcr_producer_count"),
  ("EpDcpXdcrTotalBacklogSize", "ep_dcp_xdcr_total_backlog_size"),
  ("EpDcpXdcrTotalBytes", "ep_dcp_xdcr_total_bytes"),
  ("EpDiskqueueDrain", "ep_diskqueue_drain"),
  ("EpDiskqueueFill", "ep_diskqueue_fill"),
  ("EpDiskqueueItems", "ep_diskqueue_items"),
  ("EpFlusherTodo", "ep_flusher_todo"),
  ("EpItemCommitFailed", "ep_item_commit_failed"),
  ("EpKvSize", "ep_kv_size"),
  ("EpMaxSize", "ep_max_size"),
  ("EpMemHighWat", "ep_mem_high_wat"),
  ("EpMemLowWat", "ep_mem_low_wat"),
  ("EpMetaDataMemory", "ep_meta_data_memory"),
  ("EpNumNonResident", "ep_num_non_resident"),
  ("EpNumOpsDelMeta", "ep_num_ops_del_meta"),
  ("EpNumOpsDelRetMeta", "ep_num_ops_del_ret_meta"),
  ("EpNumOpsGetMeta", "ep_num_ops_get_meta"),
  ("EpNumOpsSetMeta", "ep_num_ops_set_meta"),
  ("EpNumOpsSetRetMeta", "ep_num_ops_set_ret_meta"),
  ("EpNumValueEjects", "ep_num_value_ejects"),
  ("EpOomErrors", "ep_oom_errors"),
  ("EpOpsCreate", "ep_ops_create"),
  ("EpOpsUpdate", "ep_ops_update"),
  ("EpOverhead", "ep_overhead"),
  ("EpQueueSize", "ep_queue_size"),
  ("EpReplicaAheadExceptions", "ep_replica_ahead_exceptions"),
  ("EpReplicaHlcDrift", "ep_replica_hlc_drift"),
  ("EpReplicaHlcDriftCount", "ep_replica_hlc_drift_count"),
  ("EpTmpOomErrors", "ep_tmp_oom_errors"),
  ("EpVbTotal", "ep_vb_total"),
  ("VbAvgActiveQueueAge", "vb_avg_active_queue_age"),
  ("VbAvgReplicaQueueAge", "vb_avg_replica_queue_age"),
  ("VbAvgPendingQueueAge", "vb_avg_pending_queue_age"),
  ("VbAvgTotalQueueAge", "vb_avg_total_queue_age"),
  ("VbActiveResidentItemsRatio", "vb_active_resident_items_ratio"),
  ("VbReplicaResidentItemsRatio", "vb_replica_resident_items_ratio"),
  ("VbPendingResidentItemsRatio", "vb_pending_resident_items_ratio"),
  ("VbActiveEject", "vb_active_eject"),
  ("VbActiveItmMemory", "vb_active_itm_memory"),
  ("VbActiveMetaDataMemory", "vb_active_meta_data_memory"),
  ("VbActiveNum", "vb_active_num"),
  ("VbActiveNumNonresident", "vb_active_num_non_resident"),
  ("VbActiveOpsCreate", "vb_active_ops_create"),
  ("VbActiveOpsUpdate", "vb_active_ops_update"),
  ("VbActiveQueueAge", "vb_active_queue_age"),
  ("VbActiveQueueDrain", "vb_active_queue_drain"),
  ("VbActiveQueueFill", "vb_active_queue_fill"),
  ("VbActiveQueueSize", "vb_active_queue_size"),
  ("VbActiveQueueItems", "vb_active_queue_items"),
  ("VbPendingCurrItems", "vb_pending_curr_items"),
  ("VbPendingEject", "vb_pending_eject"),
  ("VbPendingItmMemory", "vb_pending_itm_memory"),
  ("VbPendingMetaDataMemory", "vb_pending_meta_data_memory"),
  ("VbPendingNum", "vb_pending_num"),
  ("VbPendingNumNonResident", "vb_pending_num_non_resident"),
  ("VbPendingOpsCreate", "vb_pending_ops_create"),
  ("VbPendingOpsUpdate", "vb_pending_ops_update"),
  ("VbPendingQueueAge", "vb_pending_queue_age"),
  ("VbPendingQueueDrain", "vb_pending_queue_drain"),
  ("VbPendingQueueFill", "vb_pending_queue_fill"),
  ("VbPendingQueueSize", "vb_pending_queue_size"),
  ("VbReplicaCurrItems", "vb_replica_curr_items"),
  ("VbReplicaEject", "vb_replica_eject"),
  ("VbReplicaItmMemory", "vb_replica_itm_memory"),
  ("VbReplicaMetaDataMemory", "vb_replica_meta_data_memory"),
  ("VbReplicaNum", "vb_replica_num"),
  ("VbReplicaNumNonResident", "vb_replica_num_non_resident"),
  ("VbReplicaOpsCreate", "vb_replica_ops_create"),
  ("VbReplicaOpsUpdate", "vb_replica_ops_update"),
  ("VbReplicaQueueAge", "vb_replica_queue_age"),
  ("VbReplicaQueueDrain", "vb_replica_queue_drain"),
  ("VbReplicaQueueFill", "vb_replica_queue_fill"),
  ("VbReplicaQueueSize", "vb_replica_queue_size"),
  ("VbTotalQueueAge", "vb_total_queue_age"),
  ("HibernatedRequests", "hibernated_requests"),
  ("HibernatedRequests", "hibernated_waked"),
  ("XdcOps", "xdc_ops"),
  ("CpuIdleMs", "cpu_idle_ms"),
  ("CpuLocalMs", "cpu_local_ms"),
  ("CpuUtilizationRate", "cpu_utilization_rate"),
  ("BgWaitCount", "bg_wait_count"),
  ("BgWaitTotal", "bg_wait_total"),
  ("BytesRead", "bytes_read"),
  ("BytesWritten", "bytes_written"),
  ("CasBadVal", "cas_bad_val"),
  ("CasHits", "cas_hits"),
  ("CasMisses", "cas_misses"),
  ("CmdGet", "cmd_get"),
  ("CmdSet", "cmd_set"),
  ("HitRatio", "hit_ratio"),
  ("CurrConnections", "curr_connections"),
  ("CurrItems", "curr_items"),
  ("CurrItemsTot", "curr_items_tot"),
  ("DecrHits", "decr_hits"),
  ("DecrMisses", "decr_misses"),
  ("DeleteHits", "delete_hits"),
  ("DeleteMisses", "delete_misses"),
  ("DiskCommitCount", "disk_commit_count"),
  ("DiskCommitTotal", "disk_commit_total"),
  ("DiskUpdateCount", "disk_update_count"),
  ("DiskUpdateTotal", "disk_update_total"),
  ("DiskWriteQueue", "disk_write_queue"),
  ("Evictions", "evictions"),
  ("GetHits", "get_hits"),
  ("GetMisses", "get_misses"),
  ("IncrHits", "incr_hits"),
  ("IncrMisses", "incr_misses"),
  ("Misses", "misses"),
  ("Ops", "ops"),
  ("MemActualFree", "mem_actual_free"),
  ("MemActualUsed", "mem_actual_used"),
  ("MemFree", "mem_free"),
  ("MemUsed", "mem_used"),
  ("MemTotal", "mem_total"),
  ("MemUsedSys", "mem_used_sys"),
  ("RestRequests", "rest_requests"),
  ("SwapTotal", "swap_total"),
  ("SwapUsed", "swap_used")]

/-- One iteration body for one bucket: every entry of the dispatch table
is published via setGaugeVec from the formatted samples-map lookup, with
label values bucket name, node, cluster name. -/
def collectBucketSamples (store : GaugeStore) (samples : SamplesMap) (bucketName node clusterName : String) : GaugeStore :=
  statsTable.foldl
    (fun st entry =>
      setGaugeVecIn st entry.1 (strToFloatArr (sprintSample (samples entry.2))) [bucketName, node, clusterName])
    store

/-- One full iteration of the endless loop: list the buckets (a failed
fetch is only logged, leaving the zero-value nil slice), then publish the
per-node stats of every bucket in order. -/
def collectIteration (client : Client) (store : GaugeStore) (node clusterName : String) : GaugeStore :=
  let buckets :=
    match client.buckets with
    | Except.error _ => []
    | Except.ok bs => bs
  buckets.foldl
    (fun st bucket =>
      collectBucketSamples st (getPerNodeBucketStats client bucket.name node) bucket.name node clusterName)
    store

/-- The gauge-store effect of the first given number of iterations of the
spawned loop (the Go loop is endless; any finite initial segment of it is one of
these). -/
def collectNIterations (client : Client) (store : GaugeStore) (node clusterName : String) : Nat → GaugeStore
  | 0 => store
  | n + 1 => collectNIterations client (collectIteration client store node clusterName) node clusterName n

/-- Embedding of collectPerNodeBucketMetrics, as the effect on the gauge
store of running it and letting the spawned loop perform the given number
of iterations.  The cluster name is resolved first; on failure the
function returns before any write.  The rebalance gate is then retried;
the client model is stateless, so every retry attempt of the gate
observes the same node-list response and the retry loop is equivalent to
a single evaluation of the gate: when it reports balanced the goroutine
runs, otherwise the retry budget runs out and nothing is written. -/
def collectPerNodeBucketMetrics (client : Client) (node : String) (store : GaugeStore) (iterations : Nat) : GaugeStore :=
  match client.clusterName with
  | Except.error _ => store
  | Except.ok clusterName =>
    match getClusterBalancedStatus client.nodes with
    | Except.ok true => collectNIterations client store node clusterName iterations
    | _ => store

/-! ## The retry helper

Modelled from the spec: util.Retry (package util of the repository) is
not under src.  Per the spec, it runs a function repeatedly with a fixed
delay and a bounded attempt count inside a deadline, until the function
returns success or the budget is exhausted.  The model counts elapsed
time in abstract units: attempt number k runs at elapsed time k times the
delay, and an attempt is made only while the elapsed time has not passed
the deadline and attempts remain.  The result is the number of
invocations made, paired with whether one of them succeeded. -/

/-- Inner loop of the retry helper: remaining attempts, elapsed time and
invocation count. -/
def retryAux (f : Nat → Bool) (deadline delay : Nat) : Nat → Nat → Nat → Nat × Bool
  | 0, _, calls => (calls, false)
  | attemptsLeft + 1, elapsed, calls =>
    if deadline < elapsed then (calls, false)
    else if f calls then (calls + 1, true)
    else retryAux f deadline delay attemptsLeft (elapsed + delay) (calls + 1)

/-- Modelled from the spec: the retry helper, returning how many times
the function was invoked and whether it ever succeeded. -/
def retrySpec (f : Nat → Bool) (deadline delay maxAttempts : Nat) : Nat × Bool :=
  retryAux f deadline delay maxAttempts 0 0

/-! ## RunPerNodeBucketStatsCollection (lines 2345 to 2362)

The entrypoint retries getCurrentNode inside a deadline; the client model
is stateless, so every attempt observes the same node-list response and
the retry collapses to one resolution: on failure the budget runs out and
nothing is collected, on success the collector runs with the resolved
node name. -/

/-- Embedding of RunPerNodeBucketStatsCollection, as its effect on the
gauge store when the spawned loop performs the given number of
iterations. -/
def runPerNodeBucketStatsCollection (client : Client) (store : GaugeStore) (iterations : Nat) : GaugeStore :=
  match getCurrentNode client.nodes with
  | Except.error _ => store
  | Except.ok currNode => collectPerNodeBucketMetrics client currNode store iterations

/-- The gauge store of a freshly started process: no cell ever set. -/
def emptyStore : GaugeStore := fun _ _ => none

/-! ## The end-to-end scenario of the spec

One bucket named default, one node flagged as current with hostname
node1, cluster name prod, and a stats payload whose samples map binds
curr_items to the series 10 20 30 and nothing else. -/

/-- Samples map of the scenario: only curr_items is present. -/
def scenarioSamples : SamplesMap :=
  fun field => if field = "curr_items" then some "10 20 30" else none

/-- Client of the scenario. -/
def scenarioClient : Client where
  nodes := Except.ok
    { counters := { rebalanceSuccess := 1 }
      balanced := true
      rebalanceStatus := "none"
      nodes := [{ hostname := "node1", thisNode := true }] }
  servers := fun bucket =>
    if bucket = "default" then
      Except.ok { servers := [{ hostname := "node1", stats := [("uri", "/statsurl")] }] }
    else Except.error "no such bucket"
  buckets := Except.ok [{ name := "default" }]
  clusterName := Except.ok "prod"
  get := fun url =>
    if url = "/statsurl" then Except.ok { op := { samples := scenarioSamples } }
    else Except.error "bad url"

end PerNodeBucketStats

namespace PerNodeBucketStats

lemma setGaugeVec_apply (vec : GaugeVec) (stats : List ℚ) (lv l : List String) :
    setGaugeVec vec stats lv l = if stats ≠ [] ∧ l = lv then stats.getLast? else vec l := by
  unfold setGaugeVec
  cases hs : stats.getLast? with
  | none =>
    have h0 : stats = [] := by simpa using hs
    subst h0
    simp
  | some last =>
    have hne : stats ≠ [] := by
      rintro rfl
      simp at hs
    by_cases hl : l = lv <;> simp [hl, hne, hs]

lemma strToFloatArr_foldl (l : List String) (acc : List ℚ) :
    l.foldl
      (fun floatsArr f =>
        match parseFloat f with
        | some i => floatsArr ++ [i]
        | none => floatsArr)
      acc = acc ++ l.filterMap parseFloat := by
  induction l generalizing acc with
  | nil => simp
  | cons a t ih =>
    simp only [List.foldl_cons, List.filterMap_cons]
    cases h : parseFloat a with
    | none => simp [h, ih]
    | some v => simp [h, ih]

/-- C1: strToFloatArr returns exactly the values of the tokens of the
input (split on single-space boundaries) that parse as floats, in their
original order, unparseable and empty tokens silently dropped; the empty
string gives the empty sequence, and the example input with one malformed
token and a trailing empty token gives exactly its two parseable values. -/
theorem strToFloatArr_parsesExactTokens :
    (∀ s : String, strToFloatArr s = (splitOnSpaces s).filterMap parseFloat) ∧
    strToFloatArr "" = [] ∧
    strToFloatArr "1.0 bad 2.5 " = [1, 5 / 2] := by
  refine ⟨fun s => ?_, ?_, ?_⟩
  · unfold strToFloatArr
    exact strToFloatArr_foldl _ _
  · rfl
  · have h : strToFloatArr "1.0 bad 2.5 " =
        [applyExp ((1 : Nat) + ((0 : Nat) : ℚ) / (10 : ℚ) ^ 1) 0,
         applyExp ((2 : Nat) + ((5 : Nat) : ℚ) / (10 : ℚ) ^ 1) 0] := rfl
    rw [h]
    norm_num [applyExp]

/-- C2: setGaugeVec is a no-op on an empty stats sequence, leaving every
cell of the gauge vector at its prior value, and on a nonempty sequence
it sets exactly the cell at the given label tuple to the last element,
leaving every other cell unchanged. -/
theorem setGaugeVec_lastOrNoop (vec : GaugeVec) (stats : List ℚ) (lv l : List String) :
    setGaugeVec vec stats lv l = if stats ≠ [] ∧ l = lv then stats.getLast? else vec l :=
  setGaugeVec_apply vec stats lv l


/-- C3: on a successful node-list fetch the balanced status is true
exactly when the rebalance-success counter is positive, or the balanced
flag is set and the rebalance status equals none; it is false otherwise;
and the result is an error exactly when the node-list fetch fails. -/
theorem getClusterBalancedStatus_spec (r : Except String NodesInfo) :
    (∀ info, r = Except.ok info →
      (getClusterBalancedStatus r = Except.ok true ↔
        0 < info.counters.rebalanceSuccess ∨
          (info.balanced = true ∧ info.rebalanceStatus = "none")) ∧
      (getClusterBalancedStatus r = Except.ok false ↔
        ¬(0 < info.counters.rebalanceSuccess ∨
          (info.balanced = true ∧ info.rebalanceStatus = "none")))) ∧
    (∀ e, r = Except.error e → ∃ msg, getClusterBalancedStatus r = Except.error msg) := by
  constructor
  · rintro info rfl
    constructor
    · simp [getClusterBalancedStatus]
    · simp [getClusterBalancedStatus]
  · rintro e rfl
    exact ⟨_, rfl⟩

/-- Witness for C3 at the two examples of the claim: two successful
rebalances with the balanced flag down and status running give true,
while zero successes with the flag up and status running give false. -/
theorem getClusterBalancedStatus_spec_witness :
    getClusterBalancedStatus (Except.ok
      { counters := { rebalanceSuccess := 2 }, balanced := false,
        rebalanceStatus := "running", nodes := [] }) = Except.ok true ∧
    getClusterBalancedStatus (Except.ok
      { counters := { rebalanceSuccess := 0 }, balanced := true,
        rebalanceStatus := "running", nodes := [] }) = Except.ok false := by
  constructor
  · exact (((getClusterBalancedStatus_spec _).1 _ rfl).1).mpr (Or.inl (by decide))
  · exact (((getClusterBalancedStatus_spec _).1 _ rfl).2).mpr (by decide)

lemma findThisNode_eq (l : List ClusterNode) :
    findThisNode l = ((l.find? fun nd => nd.thisNode).map fun nd => nd.hostname).getD "" := by
  induction l with
  | nil => rfl
  | cons n rest ih =>
    by_cases h : n.thisNode <;> simp [findThisNode, List.find?_cons, h, ih]

/-- C4: getCurrentNode is an error exactly when the node-list fetch
fails; on success it returns the hostname of the first node carrying the
this-node flag, and the empty string with no error when no node carries
the flag. -/
theorem getCurrentNode_spec (r : Except String NodesInfo) :
    (∀ e, r = Except.error e → ∃ msg, getCurrentNode r = Except.error msg) ∧
    (∀ info, r = Except.ok info →
      (∀ n, info.nodes.find? (fun nd => nd.thisNode) = some n →
        getCurrentNode r = Except.ok n.hostname) ∧
      (info.nodes.find? (fun nd => nd.thisNode) = none →
        getCurrentNode r = Except.ok "")) := by
  constructor
  · rintro e rfl
    exact ⟨_, rfl⟩
  · rintro info rfl
    constructor
    · intro n hn
      simp [getCurrentNode, findThisNode_eq, hn]
    · intro hn
      simp [getCurrentNode, findThisNode_eq, hn]

/-- Witness for C4 at the example of the claim: among a node a without
the flag and a node b with it, the resolved hostname is b; and with no
flagged node the result is the empty string with no error. -/
theorem getCurrentNode_spec_witness :
    getCurrentNode (Except.ok
      { counters := { rebalanceSuccess := 0 }, balanced := true, rebalanceStatus := "none",
        nodes := [{ hostname := "a", thisNode := false }, { hostname := "b", thisNode := true }] })
      = Except.ok "b" ∧
    getCurrentNode (Except.ok
      { counters := { rebalanceSuccess := 0 }, balanced := true, rebalanceStatus := "none",
        nodes := [{ hostname := "a", thisNode := false }] })
      = Except.ok "" := by
  constructor
  · exact ((getCurrentNode_spec _).2 _ rfl).1 { hostname := "b", thisNode := true } rfl
  · exact ((getCurrentNode_spec _).2 _ rfl).2 rfl


lemma foldl_uri_eq (node : String) (l : List Server) (init : String) :
    l.foldl
      (fun correctURI server =>
        if server.hostname == node then mapGetD server.stats "uri" else correctURI)
      init =
    (((l.reverse.find? fun server => server.hostname == node).map
        fun srv => mapGetD srv.stats "uri").getD init) := by
  induction l using List.reverseRecOn generalizing init with
  | nil => rfl
  | append_singleton t a ih =>
    rw [List.foldl_append, List.reverse_append]
    simp only [List.foldl_cons, List.foldl_nil, List.reverse_cons, List.reverse_nil,
      List.nil_append, List.singleton_append, List.find?_cons]
    cases h : (a.hostname == node) with
    | true => simp
    | false => simpa using ih init

lemma filter_getLast?_eq (p : Server → Bool) (l : List Server) :
    (l.filter p).getLast? = l.reverse.find? p := by
  induction l using List.reverseRecOn with
  | nil => rfl
  | append_singleton t a ih =>
    rw [List.filter_append, List.reverse_append]
    simp only [List.filter_cons, List.filter_nil, List.reverse_cons, List.reverse_nil,
      List.nil_append, List.singleton_append, List.find?_cons]
    cases h : p a with
    | true => simp [List.getLast?_concat]
    | false => simp [ih]

/-- C6: when the server list of the bucket is fetched successfully but no
server in it has a hostname equal to the node name, the stats URL lookup
returns the empty string rather than failing. -/
theorem statsURL_noMatchEmpty (s : ServersInfo) (node : String)
    (h : ∀ server ∈ s.servers, server.hostname ≠ node) :
    getSpecificNodeBucketStatsURL (Except.ok s) node = "" := by
  unfold getSpecificNodeBucketStatsURL
  rw [foldl_uri_eq]
  have hf : (s.servers.reverse.find? fun server => server.hostname == node) = none :=
    List.find?_eq_none.mpr (by
      intro server hs
      simpa using h server (List.mem_reverse.mp hs))
  rw [hf]
  rfl

/-- Witness for C6: a one-server list whose hostname differs from the
node yields the empty URL. -/
theorem statsURL_noMatchEmpty_witness :
    getSpecificNodeBucketStatsURL
      (Except.ok { servers := [{ hostname := "other", stats := [("uri", "u")] }] }) "node1" = "" :=
  statsURL_noMatchEmpty _ "node1" (by decide)

/-- C10: when more than one server of the fetched list has a hostname
equal to the node name, the stats URL lookup returns the uri entry of the
last matching server in list order; the scan does not stop at the first
match. -/
theorem statsURL_lastMatchWins (s : ServersInfo) (node : String)
    (h : 1 < (s.servers.filter fun server => server.hostname == node).length) :
    ∃ srv, (s.servers.filter fun server => server.hostname == node).getLast? = some srv ∧
      getSpecificNodeBucketStatsURL (Except.ok s) node = mapGetD srv.stats "uri" := by
  have hne : (s.servers.filter fun server => server.hostname == node) ≠ [] := by
    intro h0
    rw [h0] at h
    simp at h
  obtain ⟨srv, hsrv⟩ := Option.isSome_iff_exists.mp (List.getLast?_isSome.mpr hne)
  refine ⟨srv, hsrv, ?_⟩
  unfold getSpecificNodeBucketStatsURL
  rw [foldl_uri_eq, ← filter_getLast?_eq, hsrv]
  rfl

/-- Witness for C10: two servers with the node hostname and different
uri entries; the premise holds and the url resolves through the theorem. -/
theorem statsURL_lastMatchWins_witness :
    1 < (({ servers := [{ hostname := "n", stats := [("uri", "u1")] },
            { hostname := "n", stats := [("uri", "u2")] }] } : ServersInfo).servers.filter
          fun server => server.hostname == "n").length ∧
    ∃ srv, (({ servers := [{ hostname := "n", stats := [("uri", "u1")] },
            { hostname := "n", stats := [("uri", "u2")] }] } : ServersInfo).servers.filter
          fun server => server.hostname == "n").getLast? = some srv ∧
      getSpecificNodeBucketStatsURL
        (Except.ok { servers := [{ hostname := "n", stats := [("uri", "u1")] },
            { hostname := "n", stats := [("uri", "u2")] }] }) "n" = mapGetD srv.stats "uri" :=
  ⟨by decide, statsURL_lastMatchWins _ "n" (by decide)⟩


lemma retryAux_pastDeadline (f : Nat → Bool) (deadline delay elapsed calls : Nat)
    (h : deadline < elapsed) (n : Nat) :
    retryAux f deadline delay n elapsed calls = (calls, false) := by
  cases n with
  | zero => rfl
  | succ m => simp [retryAux, h]

lemma retryAux_count (f : Nat → Bool) (hf : ∀ i, f i = false) (deadline delay : Nat)
    (hd : 0 < delay) :
    ∀ (n elapsed calls : Nat), elapsed ≤ deadline →
      retryAux f deadline delay n elapsed calls =
        (calls + min n ((deadline - elapsed) / delay + 1), false) := by
  intro n
  induction n with
  | zero =>
    intro elapsed calls h
    simp [retryAux]
  | succ m ih =>
    intro elapsed calls h
    rw [retryAux, if_neg (by omega), hf calls, if_neg (by simp)]
    by_cases h2 : elapsed + delay ≤ deadline
    · have h1 : delay ≤ deadline - elapsed := by omega
      have hdiv := Nat.div_eq_sub_div hd h1
      rw [Nat.sub_sub] at hdiv
      rw [ih (elapsed + delay) (calls + 1) h2, hdiv]
      simp only [Prod.mk.injEq, and_true]
      generalize (deadline - (elapsed + delay)) / delay = X
      omega
    · rw [retryAux_pastDeadline f deadline delay (elapsed + delay) (calls + 1) (by omega) m]
      have hdiv : (deadline - elapsed) / delay = 0 := Nat.div_eq_of_lt (by omega)
      rw [hdiv]
      simp only [Prod.mk.injEq, and_true]
      omega

/-- C8: against a function that fails on every invocation, the retry
helper invokes it exactly the minimum of the attempt bound and the number
of attempt slots the deadline allows, so exactly the attempt bound many
times when the deadline is not the binding constraint, never more than
the bound, and fewer when the deadline expires first; in every case the
overall result is failure. -/
theorem retry_budget (f : Nat → Bool) (deadline delay maxAttempts : Nat)
    (hf : ∀ i, f i = false) (hd : 0 < delay) :
    (retrySpec f deadline delay maxAttempts).2 = false ∧
    (retrySpec f deadline delay maxAttempts).1 ≤ maxAttempts ∧
    (retrySpec f deadline delay maxAttempts).1 = min maxAttempts (deadline / delay + 1) := by
  have h := retryAux_count f hf deadline delay hd maxAttempts 0 0 (Nat.zero_le _)
  unfold retrySpec
  rw [h]
  refine ⟨rfl, ?_, ?_⟩
  · simp only [Nat.zero_add]
    exact Nat.min_le_left _ _
  · simp

/-- Witness for C8: a function returning failure on every invocation,
attempt bound three, delay twenty inside deadline one hundred: three
invocations, overall failure. -/
theorem retry_budget_witness :
    (retrySpec (fun _ => false) 100 20 3).2 = false ∧
    (retrySpec (fun _ => false) 100 20 3).1 = 3 := by
  have h := retry_budget (fun _ => false) 100 20 3 (fun _ => rfl) (by decide)
  exact ⟨h.1, h.2.2.trans (by decide)⟩


/-- C9: a tracked field absent from the samples map is formatted by
fmt.Sprint to the nil placeholder string, which strToFloatArr maps to the
empty sequence, so the corresponding setGaugeVec call leaves the whole
gauge store unchanged; and a failed stats GET yields bucket stats whose
samples map has every field absent. -/
theorem missingField_noWrite (samples : SamplesMap) (field : String)
    (h : samples field = none) :
    sprintSample (samples field) = "<nil>" ∧
    strToFloatArr (sprintSample (samples field)) = [] ∧
    (∀ (store : GaugeStore) (g : String) (lv : List String),
      setGaugeVecIn store g (strToFloatArr (sprintSample (samples field))) lv = store) ∧
    (∀ (client : Client) (bucketName nodeName e : String),
      client.get (getSpecificNodeBucketStatsURL (client.servers bucketName) nodeName) =
        Except.error e →
      getPerNodeBucketStats client bucketName nodeName field = none) := by
  have h1 : sprintSample (samples field) = "<nil>" := by rw [h]; rfl
  have h2 : strToFloatArr (sprintSample (samples field)) = [] := by rw [h1]; rfl
  refine ⟨h1, h2, ?_, ?_⟩
  · intro store g lv
    rw [h2]
    funext name l
    by_cases hn : name = g <;> simp [setGaugeVecIn, setGaugeVec, hn]
  · intro client bucketName nodeName e hget
    simp [getPerNodeBucketStats, hget]

/-- Witness for C9 at the scenario samples map, which does not bind the
field mem-used. -/
theorem missingField_noWrite_witness :
    scenarioSamples "mem_used" = none ∧
    strToFloatArr (sprintSample (scenarioSamples "mem_used")) = [] :=
  ⟨rfl, (missingField_noWrite scenarioSamples "mem_used" rfl).2.1⟩

lemma strToFloatArr_series : strToFloatArr "10 20 30" = [10, 20, 30] := by
  have h : strToFloatArr "10 20 30" =
      [applyExp ((10 : Nat) : ℚ) 0, applyExp ((20 : Nat) : ℚ) 0, applyExp ((30 : Nat) : ℚ) 0] := rfl
  rw [h]
  norm_num [applyExp]

/-- C5: in the scenario with one bucket named default, one node flagged
as current with hostname node1 and cluster name prod, where the stats
payload binds curr-items to the sample series 10 20 30, one iteration of
the collection loop leaves the CurrItems gauge cell at label tuple
bucket default, node node1, cluster prod holding the value 30. -/
theorem currItems_endToEnd :
    runPerNodeBucketStatsCollection scenarioClient emptyStore 1
      "CurrItems" ["default", "node1", "prod"] = some 30 := by
  have h : runPerNodeBucketStatsCollection scenarioClient emptyStore 1
      "CurrItems" ["default", "node1", "prod"] = (strToFloatArr "10 20 30").getLast? := rfl
  rw [h, strToFloatArr_series]
  rfl


lemma setGaugeVecIn_ne (store : GaugeStore) (g : String) (stats : List ℚ) (lv : List String)
    (name : String) (l : List String)
    (hne : setGaugeVecIn store g stats lv name l ≠ store name l) :
    l = lv := by
  by_contra hl
  apply hne
  unfold setGaugeVecIn
  by_cases hn : name = g
  · subst hn
    rw [if_pos rfl, setGaugeVec_apply, if_neg (fun hc => hl hc.2)]
  · rw [if_neg hn]

lemma collectBucketSamples_ne (entries : List (String × String)) (samples : SamplesMap)
    (b node cn : String) (store : GaugeStore) (name : String) (l : List String)
    (hne : (entries.foldl
        (fun st entry =>
          setGaugeVecIn st entry.1 (strToFloatArr (sprintSample (samples entry.2))) [b, node, cn])
        store) name l ≠ store name l) :
    l = [b, node, cn] := by
  induction entries generalizing store with
  | nil => exact absurd rfl hne
  | cons e t ih =>
    rw [List.foldl_cons] at hne
    by_cases h1 : setGaugeVecIn store e.1 (strToFloatArr (sprintSample (samples e.2)))
        [b, node, cn] name l = store name l
    · exact ih _ (fun hc => hne (hc.trans h1))
    · exact setGaugeVecIn_ne _ _ _ _ _ _ h1

lemma collectIteration_ne (client : Client) (store : GaugeStore) (node cn : String)
    (name : String) (l : List String)
    (hne : collectIteration client store node cn name l ≠ store name l) :
    ∃ b, l = [b, node, cn] := by
  unfold collectIteration at hne
  generalize (match client.buckets with
    | Except.error _ => []
    | Except.ok bs => bs) = bl at hne
  induction bl generalizing store with
  | nil => exact absurd rfl hne
  | cons bk t ih =>
    rw [List.foldl_cons] at hne
    by_cases h1 : collectBucketSamples store (getPerNodeBucketStats client bk.name node)
        bk.name node cn name l = store name l
    · exact ih _ (fun hc => hne (hc.trans h1))
    · exact ⟨bk.name, collectBucketSamples_ne statsTable _ _ _ _ _ _ _ h1⟩

lemma collectNIterations_ne (client : Client) (node cn : String) :
    ∀ (n : Nat) (store : GaugeStore) (name : String) (l : List String),
      collectNIterations client store node cn n name l ≠ store name l →
      ∃ b, l = [b, node, cn] := by
  intro n
  induction n with
  | zero =>
    intro store name l hne
    exact absurd rfl hne
  | succ m ih =>
    intro store name l hne
    rw [collectNIterations] at hne
    by_cases h1 : collectIteration client store node cn name l = store name l
    · exact ih _ _ _ (fun hc => hne (hc.trans h1))
    · exact collectIteration_ne client store node cn name l h1

/-- C7: whenever running collectPerNodeBucketMetrics (with its spawned
loop performing any number of iterations) changes any gauge cell, the
cluster name had resolved successfully, so no gauge is written when that
resolution fails, and the label tuple of every written cell carries
exactly the node identity and the cluster name that were resolved before
the loop started. -/
theorem labels_resolvedFirst (client : Client) (node : String) (store : GaugeStore)
    (iterations : Nat) (g : String) (l : List String)
    (hchg : collectPerNodeBucketMetrics client node store iterations g l ≠ store g l) :
    ∃ cn, client.clusterName = Except.ok cn ∧ ∃ b, l = [b, node, cn] := by
  unfold collectPerNodeBucketMetrics at hchg
  cases hc : client.clusterName with
  | error e =>
    rw [hc] at hchg
    exact absurd rfl hchg
  | ok cn =>
    rw [hc] at hchg
    refine ⟨cn, rfl, ?_⟩
    cases hb : getClusterBalancedStatus client.nodes with
    | error e =>
      rw [hb] at hchg
      exact absurd rfl hchg
    | ok bal =>
      cases bal with
      | false =>
        rw [hb] at hchg
        exact absurd rfl hchg
      | true =>
        rw [hb] at hchg
        exact collectNIterations_ne client node cn iterations store g l hchg

/-- Witness for C7: in the end-to-end scenario the CurrItems cell at the
tuple with bucket default changes, and the theorem yields the resolved
cluster name prod together with the tuple decomposition. -/
theorem labels_resolvedFirst_witness :
    ∃ cn, scenarioClient.clusterName = Except.ok cn ∧
      ∃ b, (["default", "node1", "prod"] : List String) = [b, "node1", cn] :=
  labels_resolvedFirst scenarioClient "node1" emptyStore 1 "CurrItems"
    ["default", "node1", "prod"]
    (by
      have h : collectPerNodeBucketMetrics scenarioClient "node1" emptyStore 1
          "CurrItems" ["default", "node1", "prod"] = (strToFloatArr "10 20 30").getLast? := rfl
      rw [h, strToFloatArr_series]
      exact Option.some_ne_none 30)

end PerNodeBucketStats
